import Mathlib

/-!
Verification development for the SSD data-augmentation pipeline
(`src/data_generator/ssd_data_augmentation_ops.py`).

The repository source defines the configuration of the pipeline (the
`SSDRandomCrop`, `SSDExpand`, `SSDPhotometricDistortions` and
`SSDDataAugmentation` classes together with their `__call__` methods).
The primitive collaborators these classes are built from (patch samplers,
box filters, photometric primitives, flip and resize) live in modules
that are not part of the analysed source tree; following the project
specification those are modelled here from the spec's contracts
(definitions whose doc comments start with "Modelled from the spec").

Randomness is embedded as an explicit stream of uniform draws
(`Rng := List Rat`): every stochastic primitive consumes draws from the
front of the stream and returns the remaining stream, so every pipeline
function is a pure function of (image, labels, RNG state).
-/

/-- An image: height times width times channel array of pixel values.
Pixel contents are a function of the indices; the dtype bookkeeping of the
original (uint8 / float32) is not tracked, pixel values live in the
rationals. -/
structure Image where
  height : Nat
  width : Nat
  channels : Nat
  pix : Nat → Nat → Nat → ℚ

/-- A single ground-truth box: class id plus corner coordinates
(xmin, ymin, xmax, ymax) in absolute pixel coordinates. -/
structure Box where
  classId : ℤ
  xmin : ℚ
  ymin : ℚ
  xmax : ℚ
  ymax : ℚ
deriving DecidableEq

/-- A label set is an ordered sequence of boxes. -/
abbrev LabelSet := List Box

/-- An axis-aligned candidate patch in absolute pixel coordinates, possibly
extending outside the reference image (expansion) or inside it (crop). -/
structure Patch where
  xmin : ℚ
  ymin : ℚ
  xmax : ℚ
  ymax : ℚ
deriving DecidableEq

/-- A pair of optional lower / upper IoU-threshold bounds; a missing
endpoint means unconstrained at that end. -/
abbrev BoundPair := Option ℚ × Option ℚ

/-- The random state: a stream of uniform draws in [0,1).  Stream entries
outside [0,1) are normalised to 0 by `norm01` when drawn. -/
abbrev Rng := List ℚ

/-- Normalise a stream entry to the interval [0,1) (entries of a
well-formed stream are left unchanged). -/
def norm01 (u : ℚ) : ℚ := if 0 ≤ u ∧ u < 1 then u else 0

/-- Pop one uniform draw off the stream (0 when the stream is exhausted). -/
def draw : Rng → ℚ × Rng
  | [] => (0, [])
  | u :: r => (norm01 u, r)

/-- Modelled from the spec: the Bernoulli coin behind every
"with probability p" decision; succeeds iff the uniform draw is < p. -/
def coinFlip (p : ℚ) (r : Rng) : Bool × Rng :=
  let d := draw r
  (decide (d.1 < p), d.2)

/-- Modelled from the spec: a uniform sample in the interval [a, b]. -/
def uniformQ (a b : ℚ) (r : Rng) : ℚ × Rng :=
  let d := draw r
  (a + d.1 * (b - a), d.2)

/-- Floor of a nonnegative rational as a natural number (via flooring
integer division of numerator by denominator). -/
def qfloorNat (q : ℚ) : Nat := (Int.fdiv q.num q.den).toNat

/-- Floor of a rational as an integer. -/
def qfloorInt (q : ℚ) : ℤ := Int.fdiv q.num q.den

/-- Index selected by a uniform draw among n alternatives. -/
def chooseIdx (n : Nat) (u : ℚ) : Nat := min (qfloorNat (u * n)) (n - 1)

/-- Modelled from the spec: uniform choice of one element of a finite
list (`d` is returned for an empty list). -/
def chooseFrom {α : Type} (xs : List α) (d : α) (r : Rng) : α × Rng :=
  let u := draw r
  (xs.getD (chooseIdx xs.length u.1) d, u.2)

theorem norm01_nonneg (u : ℚ) : 0 ≤ norm01 u := by
  unfold norm01; split
  · next h => exact h.1
  · exact le_refl 0

theorem norm01_lt_one (u : ℚ) : norm01 u < 1 := by
  unfold norm01; split
  · next h => exact h.2
  · exact zero_lt_one

theorem draw_fst_nonneg (r : Rng) : 0 ≤ (draw r).1 := by
  cases r with
  | nil => exact le_refl 0
  | cons u t => exact norm01_nonneg u

/-! ## Photometric distortions

The photometric primitives (`object_detection_2d_photometric_ops.py`) are
not part of the analysed source; the spec treats them as out-of-scope
collaborators with contract `(Image, LabelSet) -> (Image, LabelSet)` where
the label set is always passed through unchanged.  They are deep-embedded
as an operation datatype (so the two operation sequences of
`SSDPhotometricDistortions.__init__` are concrete, comparable lists) plus
an interpreter modelled from the spec. -/

/-- The photometric operations appearing in `SSDPhotometricDistortions`,
with the numeric parameters they are constructed with in the source. -/
inductive PhotometricOp where
  | convertTo3Channels
  | convertToFloat32
  | convertToUint8
  | convertRGBtoHSV
  | convertHSVtoRGB
  | randomBrightness (lower upper prob : ℚ)
  | randomContrast (lower upper prob : ℚ)
  | randomSaturation (lower upper prob : ℚ)
  | randomHue (maxDelta prob : ℚ)
  | randomChannelSwap (prob : ℚ)
deriving DecidableEq

/-- Apply a per-channel pixel map to an image (dimensions unchanged). -/
def mapPix (f : Nat → ℚ → ℚ) (img : Image) : Image :=
  ⟨img.height, img.width, img.channels, fun i j c => f c (img.pix i j c)⟩

/-- Modelled from the spec: a pixel-only operation that, with probability
`p`, samples a parameter uniformly in [lo, hi] and maps it over the
pixels; otherwise it is the identity.  Labels pass through unchanged. -/
def pixOpWithProb (p lo hi : ℚ) (f : ℚ → Nat → ℚ → ℚ) (img : Image)
    (l : LabelSet) (r : Rng) : (Image × LabelSet) × Rng :=
  let b := coinFlip p r
  if b.1 then
    let d := uniformQ lo hi b.2
    ((mapPix (f d.1) img, l), d.2)
  else ((img, l), b.2)

/-- The five channel permutations of the channel-swap primitive,
written as images of (0, 1, 2). -/
def channelPerms : List (Nat × Nat × Nat) :=
  [(0, 2, 1), (1, 0, 2), (1, 2, 0), (2, 0, 1), (2, 1, 0)]

/-- Apply a channel permutation to an image. -/
def permutePix (t : Nat × Nat × Nat) (img : Image) : Image :=
  ⟨img.height, img.width, img.channels, fun i j c =>
    img.pix i j (if c = 0 then t.1 else if c = 1 then t.2.1 else t.2.2)⟩

/-- Modelled from the spec: the channel-swap primitive; with probability
`p` applies a randomly chosen channel permutation, otherwise the
identity.  Labels pass through unchanged. -/
def channelSwapOp (p : ℚ) (img : Image) (l : LabelSet) (r : Rng) :
    (Image × LabelSet) × Rng :=
  let b := coinFlip p r
  if b.1 then
    let pm := chooseFrom channelPerms (0, 2, 1) b.2
    ((permutePix pm.1 img, l), pm.2)
  else ((img, l), b.2)

/-- Broadcast a single-channel image to three channels; other images pass
through unchanged. -/
def to3Channels (img : Image) : Image :=
  if img.channels = 1 then
    ⟨img.height, img.width, 3, fun i j _ => img.pix i j 0⟩
  else img

/-- Modelled from the spec: the interpreter of the photometric
primitives.  Every primitive passes the label set through unchanged (the
spec's interface contract); colourspace and dtype conversions act on the
pixel grid only (their pixel semantics are out of the spec's scope, the
uint8 conversion clamps to [0, 255] and floors). -/
def applyOp : PhotometricOp → Image → LabelSet → Rng → (Image × LabelSet) × Rng
  | .convertTo3Channels, img, l, r => ((to3Channels img, l), r)
  | .convertToFloat32, img, l, r => ((img, l), r)
  | .convertToUint8, img, l, r =>
      ((mapPix (fun _ v => ((qfloorNat (max 0 (min v 255)) : ℚ))) img, l), r)
  | .convertRGBtoHSV, img, l, r => ((img, l), r)
  | .convertHSVtoRGB, img, l, r => ((img, l), r)
  | .randomBrightness lo hi p, img, l, r =>
      pixOpWithProb p lo hi (fun d _ v => v + d) img l r
  | .randomContrast lo hi p, img, l, r =>
      pixOpWithProb p lo hi (fun f _ v => (v - 255/2) * f + 255/2) img l r
  | .randomSaturation lo hi p, img, l, r =>
      pixOpWithProb p lo hi (fun f c v => if c = 1 then v * f else v) img l r
  | .randomHue d p, img, l, r =>
      pixOpWithProb p (-d) d (fun dl c v => if c = 0 then v + dl else v) img l r
  | .randomChannelSwap p, img, l, r => channelSwapOp p img l r

/-- Thread an (image, labels) pair through a list of photometric
operations in order (the for-loop of `SSDPhotometricDistortions.__call__`). -/
def applySeq : List PhotometricOp → Image → LabelSet → Rng → (Image × LabelSet) × Rng
  | [], img, l, r => ((img, l), r)
  | op :: ops, img, l, r =>
      let t := applyOp op img l r
      applySeq ops t.1.1 t.1.2 t.2

/-- The first photometric sub-sequence (`SSDPhotometricDistortions.sequence1`). -/
def SSDPhotometricDistortions.sequence1 : List PhotometricOp :=
  [.convertTo3Channels,
   .convertToFloat32,
   .randomBrightness (-32) 32 (1/2),
   .randomContrast (1/2) (3/2) (1/2),
   .convertToUint8,
   .convertRGBtoHSV,
   .convertToFloat32,
   .randomSaturation (1/2) (3/2) (1/2),
   .randomHue 18 (1/2),
   .convertToUint8,
   .convertHSVtoRGB,
   .randomChannelSwap 0]

/-- The second photometric sub-sequence (`SSDPhotometricDistortions.sequence2`). -/
def SSDPhotometricDistortions.sequence2 : List PhotometricOp :=
  [.convertTo3Channels,
   .convertToFloat32,
   .randomBrightness (-32) 32 (1/2),
   .convertToUint8,
   .convertRGBtoHSV,
   .convertToFloat32,
   .randomSaturation (1/2) (3/2) (1/2),
   .randomHue 18 (1/2),
   .convertToUint8,
   .convertHSVtoRGB,
   .convertToFloat32,
   .randomContrast (1/2) (3/2) (1/2),
   .convertToUint8,
   .randomChannelSwap 0]

/-- The selector `np.random.choice(2)` of
`SSDPhotometricDistortions.__call__`: a uniform draw over 0 or 1. -/
def npChoice2 (r : Rng) : Nat × Rng :=
  let u := draw r
  (if u.1 * 2 < 1 then 0 else 1, u.2)

/-- `SSDPhotometricDistortions.__call__`: one draw selects sequence 1
(when the drawn value is truthy) or sequence 2, and the selected
sub-sequence is applied in order. -/
def SSDPhotometricDistortions.call (img : Image) (l : LabelSet) (r : Rng) :
    (Image × LabelSet) × Rng :=
  let c := npChoice2 r
  if c.1 ≠ 0 then applySeq SSDPhotometricDistortions.sequence1 img l c.2
  else applySeq SSDPhotometricDistortions.sequence2 img l c.2

/-! ## Geometry helpers, box filter, image validator, bound generator

These collaborators (`object_detection_2d_image_boxes_validation_utils.py`)
are not part of the analysed source; they are modelled from the spec's
component contracts (sections 4.2 to 4.4). -/

/-- X-coordinate of a box's center point. -/
def boxCx (b : Box) : ℚ := (b.xmin + b.xmax) / 2

/-- Y-coordinate of a box's center point. -/
def boxCy (b : Box) : ℚ := (b.ymin + b.ymax) / 2

/-- Whether a box's center point lies within a patch (inclusive bounds). -/
def centerInPatch (p : Patch) (b : Box) : Bool :=
  decide (p.xmin ≤ boxCx b ∧ boxCx b ≤ p.xmax ∧
          p.ymin ≤ boxCy b ∧ boxCy b ≤ p.ymax)

/-- Area of a patch. -/
def patchArea (p : Patch) : ℚ := (p.xmax - p.xmin) * (p.ymax - p.ymin)

/-- Area of a box. -/
def boxArea (b : Box) : ℚ := (b.xmax - b.xmin) * (b.ymax - b.ymin)

/-- Area of the intersection of a patch and a box. -/
def interArea (p : Patch) (b : Box) : ℚ :=
  let w := min p.xmax b.xmax - max p.xmin b.xmin
  let h := min p.ymax b.ymax - max p.ymin b.ymin
  if 0 < w ∧ 0 < h then w * h else 0

/-- Intersection over union of a patch and a box (0 for an empty union). -/
def iouPB (p : Patch) (b : Box) : ℚ :=
  let i := interArea p b
  let u := patchArea p + boxArea b - i
  if u = 0 then 0 else i / u

/-- Fraction of a box's area lying inside a patch (0 for a zero-area box). -/
def areaFrac (p : Patch) (b : Box) : ℚ :=
  if boxArea b = 0 then 0 else interArea p b / boxArea b

/-- The three overlap criteria shared by `BoxFilter` and `ImageValidator`. -/
inductive OverlapCriterion where
  | centerPoint
  | iou
  | area
deriving DecidableEq

/-- Modelled from the spec: `BoxFilter` configuration (section 4.3); the
threshold parameterises the iou / area criteria and is unused by the
center-point criterion. -/
structure BoxFilter where
  overlapCriterion : OverlapCriterion
  threshold : ℚ
deriving DecidableEq

/-- Modelled from the spec: whether `BoxFilter` keeps a box for a patch. -/
def BoxFilter.keep (bf : BoxFilter) (p : Patch) (b : Box) : Bool :=
  match bf.overlapCriterion with
  | .centerPoint => centerInPatch p b
  | .iou => decide (bf.threshold ≤ iouPB p b)
  | .area => decide (bf.threshold ≤ areaFrac p b)

/-- Modelled from the spec: `ImageValidator` configuration (section 4.4). -/
structure ImageValidator where
  overlapCriterion : OverlapCriterion
  nBoxesMin : Nat
deriving DecidableEq

/-- The overlap value of a box against a patch under a criterion (the
center-point criterion is scored 1 when the center is inside, else 0). -/
def overlapValue (c : OverlapCriterion) (p : Patch) (b : Box) : ℚ :=
  match c with
  | .centerPoint => if centerInPatch p b then 1 else 0
  | .iou => iouPB p b
  | .area => areaFrac p b

/-- Whether an overlap value satisfies a bound pair (absent endpoints are
unconstrained). -/
def boundOk (bd : BoundPair) (v : ℚ) : Bool :=
  (match bd.1 with
   | none => true
   | some lo => decide (lo ≤ v)) &&
  (match bd.2 with
   | none => true
   | some hi => decide (v ≤ hi))

/-- Modelled from the spec: `ImageValidator` acceptance — at least
`nBoxesMin` boxes must have an overlap with the patch inside the bound
pair. -/
def ImageValidator.accept (iv : ImageValidator) (bd : BoundPair) (p : Patch)
    (l : LabelSet) : Bool :=
  decide (iv.nBoxesMin ≤
    (l.filter (fun b => boundOk bd (overlapValue iv.overlapCriterion p b))).length)

/-- Modelled from the spec: `BoundGenerator` configuration (section 4.2) —
a weighted discrete set of bound pairs; `none` weights mean uniform. -/
structure BoundGenerator where
  sampleSpace : List BoundPair
  weights : Option (List ℚ)
deriving DecidableEq

/-- Modelled from the spec: one `BoundGenerator` draw.  The source
instantiates it with `weights=None` (uniform), so only the uniform case
is modelled: a uniform index into the sample space. -/
def BoundGenerator.call (bg : BoundGenerator) (r : Rng) : BoundPair × Rng :=
  chooseFrom bg.sampleSpace (none, none) r

/-! ## Patch coordinate generator (spec section 4.1) -/

/-- The scale-matching mode of `PatchCoordinateGenerator`; the source only
instantiates the mode in which both patch dimensions are tied to the
image's height and width. -/
inductive MustMatch where
  | h_w
deriving DecidableEq

/-- `PatchCoordinateGenerator` configuration as constructed in the source. -/
structure PatchCoordinateGenerator where
  mustMatch : MustMatch
  minScale : ℚ
  maxScale : ℚ
  scaleUniformly : Bool
  minAspect : ℚ
  maxAspect : ℚ
deriving DecidableEq

/-- Modelled from the spec: sample the patch height and width.  With
`scaleUniformly` one scale drives both dimensions; otherwise two scales
are drawn and the width is clamped so the aspect ratio (width over
height) stays within the configured interval. -/
def patchDims (g : PatchCoordinateGenerator) (H W : Nat) (r : Rng) :
    (ℚ × ℚ) × Rng :=
  if g.scaleUniformly then
    let s := uniformQ g.minScale g.maxScale r
    ((s.1 * H, s.1 * W), s.2)
  else
    let sh := uniformQ g.minScale g.maxScale r
    let sw := uniformQ g.minScale g.maxScale sh.2
    let ph := sh.1 * H
    let pw0 := sw.1 * W
    let pw :=
      if pw0 < g.minAspect * ph then g.minAspect * ph
      else if g.maxAspect * ph < pw0 then g.maxAspect * ph
      else pw0
    ((ph, pw), sw.2)

/-- Modelled from the spec: one `PatchCoordinateGenerator` draw — sample
the dimensions, then the top-left corner, uniformly so that the patch
lies inside the image (scales below one) or contains it (scales above
one).  Returns absolute pixel coordinates. -/
def PatchCoordinateGenerator.call (g : PatchCoordinateGenerator) (H W : Nat)
    (r : Rng) : Patch × Rng :=
  let d := patchDims g H W r
  let x := uniformQ (min 0 ((W : ℚ) - d.1.2)) (max 0 ((W : ℚ) - d.1.2)) d.2
  let y := uniformQ (min 0 ((H : ℚ) - d.1.1)) (max 0 ((H : ℚ) - d.1.1)) x.2
  (⟨x.1, y.1, x.1 + d.1.2, y.1 + d.1.1⟩, y.2)

/-! ## Patch samplers (spec section 4.5)

`RandomPatch` (single-trial mode, used by `SSDExpand`) and
`RandomPatchInf` (bounded-retry mode, used by `SSDRandomCrop`) from
`object_detection_2d_patch_sample_ops.py` are not part of the analysed
source and are modelled from the spec. -/

/-- Translate a box into the coordinate frame whose origin is the
patch's top-left corner (no clipping). -/
def translateBox (p : Patch) (b : Box) : Box :=
  ⟨b.classId, b.xmin - p.xmin, b.ymin - p.ymin, b.xmax - p.xmin, b.ymax - p.ymin⟩

/-- Clamp a patch-frame box into the patch extents [0, width] x [0, height]. -/
def clampBoxToPatch (p : Patch) (b : Box) : Box :=
  let pw := p.xmax - p.xmin
  let ph := p.ymax - p.ymin
  ⟨b.classId, max 0 (min b.xmin pw), max 0 (min b.ymin ph),
   max 0 (min b.xmax pw), max 0 (min b.ymax ph)⟩

/-- Background fill colour by channel index. -/
def bgChannel (bg : ℚ × ℚ × ℚ) (c : Nat) : ℚ :=
  if c = 0 then bg.1 else if c = 1 then bg.2.1 else bg.2.2

/-- Modelled from the spec: re-render an image onto the canvas of a
patch — a new pixel buffer of the patch's size filled with the
background colour, with the original image blitted at its position
relative to the patch. -/
def renderOnPatch (bg : ℚ × ℚ × ℚ) (img : Image) (p : Patch) : Image :=
  let oy := qfloorInt p.ymin
  let ox := qfloorInt p.xmin
  ⟨qfloorNat (p.ymax - p.ymin), qfloorNat (p.xmax - p.xmin), img.channels,
   fun i j c =>
     let si := (i : ℤ) + oy
     let sj := (j : ℤ) + ox
     if 0 ≤ si ∧ si < (img.height : ℤ) ∧ 0 ≤ sj ∧ sj < (img.width : ℤ) then
       img.pix si.toNat sj.toNat c
     else bgChannel bg c⟩

/-- `RandomPatch` configuration, mirroring the constructor arguments used
in the source. -/
structure RandomPatch where
  patchCoordGenerator : PatchCoordinateGenerator
  boxFilter : Option BoxFilter
  imageValidator : Option ImageValidator
  nTrialsMax : Nat
  clipBoxes : Bool
  prob : ℚ
  background : ℚ × ℚ × ℚ

/-- Modelled from the spec: single-trial patch-sampler mode (section
4.5).  With probability `prob` it samples exactly one patch, filters the
labels when a box filter is configured, and returns the image re-rendered
onto the patch canvas with the filtered labels re-expressed in the patch
frame; with probability `1 - prob`, or if no `ImageValidator` is
configured and filtering is skipped (no box filter), it returns the input
unchanged. -/
def RandomPatch.call (cfg : RandomPatch) (img : Image) (l : LabelSet)
    (r : Rng) : (Image × LabelSet) × Rng :=
  let b := coinFlip cfg.prob r
  if b.1 && !(cfg.imageValidator.isNone && cfg.boxFilter.isNone) then
    let ps := cfg.patchCoordGenerator.call img.height img.width b.2
    let kept :=
      match cfg.boxFilter with
      | none => l
      | some bf => l.filter (fun bx => bf.keep ps.1 bx)
    let moved := kept.map (translateBox ps.1)
    let final := if cfg.clipBoxes then moved.map (clampBoxToPatch ps.1) else moved
    ((renderOnPatch cfg.background img ps.1, final), ps.2)
  else ((img, l), b.2)

/-- `RandomPatchInf` configuration, mirroring the constructor arguments
used in the source. -/
structure RandomPatchInf where
  patchCoordGenerator : PatchCoordinateGenerator
  boxFilter : Option BoxFilter
  imageValidator : Option ImageValidator
  boundGenerator : BoundGenerator
  nTrialsMax : Nat
  clipBoxes : Bool
  prob : ℚ

/-- Crop the pixel grid of an image to a patch, clipped to the image
bounds. -/
def cropImageToPatch (img : Image) (p : Patch) : Image :=
  let x0 := max 0 p.xmin
  let y0 := max 0 p.ymin
  let x1 := min ((img.width : ℚ)) p.xmax
  let y1 := min ((img.height : ℚ)) p.ymax
  ⟨qfloorNat (y1 - y0), qfloorNat (x1 - x0), img.channels,
   fun i j c => img.pix (i + qfloorNat y0) (j + qfloorNat x0) c⟩

/-- Modelled from the spec: the successful-crop step (section 4.5, step
4): crop the image to the patch region, filter the labels via the box
filter against the unclipped patch, re-express survivors relative to the
cropped image origin by subtracting the patch's top-left corner, and
clamp them to the patch only when `clipBoxes` is set. -/
def cropApply (cfg : RandomPatchInf) (p : Patch) (img : Image) (l : LabelSet) :
    Image × LabelSet :=
  let kept :=
    match cfg.boxFilter with
    | none => l
    | some bf => l.filter (fun bx => bf.keep p bx)
  let moved := kept.map (translateBox p)
  let final := if cfg.clipBoxes then moved.map (clampBoxToPatch p) else moved
  (cropImageToPatch img p, final)

/-- Modelled from the spec: the inner trial loop — up to `n` candidate
patches are sampled; the first one accepted by the image validator (or
the first one sampled, when no validator is configured) is returned. -/
def cropTrials (cfg : RandomPatchInf) (bd : BoundPair) (img : Image)
    (l : LabelSet) : Nat → Rng → Option Patch × Rng
  | 0, r => (none, r)
  | n + 1, r =>
      let ps := cfg.patchCoordGenerator.call img.height img.width r
      let ok :=
        match cfg.imageValidator with
        | none => true
        | some iv => iv.accept bd ps.1 l
      if ok then (some ps.1, ps.2) else cropTrials cfg bd img l n ps.2

/-- Modelled from the spec: the outer rejection-sampling loop of the
bounded-retry mode.  Each round flips the probability-`prob` coin (the
source comments on `SSDRandomCrop` state that every 50 trials the
original image is returned with probability `1 - prob`); on failure of
the coin the input is returned unchanged; on success a fresh bound pair
is drawn and up to `nTrialsMax` patches are tried, a validated patch is
cropped and the loop restarts otherwise.  The fuel argument totalises
the outer loop (it is instantiated so that the loop can never consume
the random stream first). -/
def RandomPatchInf.go (cfg : RandomPatchInf) (img : Image) (l : LabelSet) :
    Nat → Rng → (Image × LabelSet) × Rng
  | 0, r => ((img, l), r)
  | fuel + 1, r =>
      let b := coinFlip cfg.prob r
      if b.1 then
        let bd := cfg.boundGenerator.call b.2
        let t := cropTrials cfg bd.1 img l cfg.nTrialsMax bd.2
        match t.1 with
        | some p => (cropApply cfg p img l, t.2)
        | none => RandomPatchInf.go cfg img l fuel t.2
      else ((img, l), b.2)

/-- Modelled from the spec: `RandomPatchInf.__call__`, the bounded-retry
crop sampler. -/
def RandomPatchInf.call (cfg : RandomPatchInf) (img : Image) (l : LabelSet)
    (r : Rng) : (Image × LabelSet) × Rng :=
  RandomPatchInf.go cfg img l (r.length + 1) r

/-! ## Flip and resize stages (spec section 6 interface contracts) -/

/-- The flip axis (the source only uses the horizontal flip). -/
inductive FlipDim where
  | horizontal
  | vertical
deriving DecidableEq

/-- `RandomFlip` configuration as constructed in the source. -/
structure RandomFlip where
  dim : FlipDim
  prob : ℚ
deriving DecidableEq

/-- Mirror an image along the chosen axis. -/
def flipImage (d : FlipDim) (img : Image) : Image :=
  match d with
  | .horizontal =>
      ⟨img.height, img.width, img.channels,
       fun i j c => img.pix i (img.width - 1 - j) c⟩
  | .vertical =>
      ⟨img.height, img.width, img.channels,
       fun i j c => img.pix (img.height - 1 - i) j c⟩

/-- Reflect a box's coordinates across the chosen axis of an image of the
given width and height. -/
def flipBox (d : FlipDim) (H W : Nat) (b : Box) : Box :=
  match d with
  | .horizontal => ⟨b.classId, (W : ℚ) - b.xmax, b.ymin, (W : ℚ) - b.xmin, b.ymax⟩
  | .vertical => ⟨b.classId, b.xmin, (H : ℚ) - b.ymax, b.xmax, (H : ℚ) - b.ymin⟩

/-- Modelled from the spec: the flip primitive — with the configured
probability it mirrors the image and recomputes the box coordinates by
reflection across the chosen axis. -/
def RandomFlip.call (cfg : RandomFlip) (img : Image) (l : LabelSet)
    (r : Rng) : (Image × LabelSet) × Rng :=
  let b := coinFlip cfg.prob r
  if b.1 then
    ((flipImage cfg.dim img, l.map (flipBox cfg.dim img.height img.width)), b.2)
  else ((img, l), b.2)

/-- The interpolation modes passed to `ResizeRandomInterp` in the source. -/
inductive InterpMode where
  | nearest
  | linear
  | cubic
  | area
  | lanczos4
deriving DecidableEq

/-- `ResizeRandomInterp` configuration as constructed in the source. -/
structure ResizeRandomInterp where
  height : Nat
  width : Nat
  interpolationModes : List InterpMode

/-- Resize the pixel grid of an image to the target size (pixel
resampling itself is out of the spec's scope; source pixels are read at
proportionally scaled indices regardless of the chosen mode). -/
def resizeImage (hT wT : Nat) (_m : InterpMode) (img : Image) : Image :=
  ⟨hT, wT, img.channels,
   fun i j c => img.pix (i * img.height / hT) (j * img.width / wT) c⟩

/-- Rescale a box's coordinates by the same ratio as the pixel
dimensions (the spec's resize-primitive contract). -/
def resizeBox (hT wT H W : Nat) (b : Box) : Box :=
  ⟨b.classId, b.xmin * wT / W, b.ymin * hT / H, b.xmax * wT / W, b.ymax * hT / H⟩

/-- Modelled from the spec: the resize stage — the interpolation mode is
chosen uniformly at random from the configured set by the stage itself,
then image and boxes are rescaled to the target size. -/
def ResizeRandomInterp.call (cfg : ResizeRandomInterp) (img : Image)
    (l : LabelSet) (r : Rng) : (Image × LabelSet) × Rng :=
  let m := chooseFrom cfg.interpolationModes .nearest r
  ((resizeImage cfg.height cfg.width m.1 img,
    l.map (resizeBox cfg.height cfg.width img.height img.width)), m.2)

/-! ## The SSD configuration objects (`__init__` bodies of the source) -/

/-- `SSDRandomCrop.__init__`: the IoU sample space of the bound
generator — only lower bounds, never upper bounds. -/
def SSDRandomCrop.sampleSpace : List BoundPair :=
  [(none, none),
   (some (1/10), none),
   (some (3/10), none),
   (some (1/2), none),
   (some (7/10), none),
   (some (9/10), none)]

/-- `SSDRandomCrop.bound_generator` (uniform weights). -/
def SSDRandomCrop.boundGenerator : BoundGenerator :=
  ⟨SSDRandomCrop.sampleSpace, none⟩

/-- `SSDRandomCrop.patch_coord_generator`. -/
def SSDRandomCrop.patchCoordGenerator : PatchCoordinateGenerator :=
  ⟨.h_w, 3/10, 1, false, 1/2, 2⟩

/-- `SSDRandomCrop.box_filter` (center-point criterion; the threshold
field parameterises only the unused iou / area criteria). -/
def SSDRandomCrop.boxFilter : BoxFilter := ⟨.centerPoint, 0⟩

/-- `SSDRandomCrop.image_validator` (iou criterion, at least one box). -/
def SSDRandomCrop.imageValidator : ImageValidator := ⟨.iou, 1⟩

/-- `SSDRandomCrop.random_crop`: the bounded-retry sampler with 50 trials
per bound, no box clipping and probability 0.857. -/
def SSDRandomCrop.randomCrop : RandomPatchInf :=
  ⟨SSDRandomCrop.patchCoordGenerator, some SSDRandomCrop.boxFilter,
   some SSDRandomCrop.imageValidator, SSDRandomCrop.boundGenerator,
   50, false, 857/1000⟩

/-- `SSDRandomCrop.__call__`. -/
def SSDRandomCrop.call (img : Image) (l : LabelSet) (r : Rng) :
    (Image × LabelSet) × Rng :=
  SSDRandomCrop.randomCrop.call img l r

/-- `SSDExpand.patch_coord_generator` (uniform scale between 1 and 4). -/
def SSDExpand.patchCoordGenerator : PatchCoordinateGenerator :=
  ⟨.h_w, 1, 4, true, 1/2, 2⟩

/-- `SSDExpand.expand`: the single-trial sampler with no box filter, no
image validator, one trial, no clipping, probability 0.5 and the mean
background colour (123, 117, 104). -/
def SSDExpand.expand : RandomPatch :=
  ⟨SSDExpand.patchCoordGenerator, none, none, 1, false, 1/2, (123, 117, 104)⟩

/-- `SSDExpand.__call__`. -/
def SSDExpand.call (img : Image) (l : LabelSet) (r : Rng) :
    (Image × LabelSet) × Rng :=
  SSDExpand.expand.call img l r

/-! ## The top-level pipeline (`SSDDataAugmentation`) -/

/-- A pipeline stage: a pure function of (image, labels, RNG state). -/
abbrev Stage := Image → LabelSet → Rng → (Image × LabelSet) × Rng

/-- `SSDDataAugmentation.random_flip` (horizontal, probability 0.5). -/
def SSDDataAugmentation.randomFlip : RandomFlip := ⟨.horizontal, 1/2⟩

/-- `SSDDataAugmentation.resize` for the configured output size, with the
five OpenCV interpolation modes listed in the source. -/
def SSDDataAugmentation.resize (h w : Nat) : ResizeRandomInterp :=
  ⟨h, w, [.nearest, .linear, .cubic, .area, .lanczos4]⟩

/-- `SSDDataAugmentation.sequence`: the five stages in their fixed order. -/
def SSDDataAugmentation.sequence (h w : Nat) : List Stage :=
  [SSDPhotometricDistortions.call,
   SSDExpand.call,
   SSDRandomCrop.call,
   SSDDataAugmentation.randomFlip.call,
   (SSDDataAugmentation.resize h w).call]

/-- Thread an (image, labels) pair through a list of stages in order
(the for-loop of `SSDDataAugmentation.__call__`). -/
def applyStages : List Stage → Image → LabelSet → Rng → (Image × LabelSet) × Rng
  | [], img, l, r => ((img, l), r)
  | s :: ss, img, l, r =>
      let t := s img l r
      applyStages ss t.1.1 t.1.2 t.2

/-- `SSDDataAugmentation.__call__` for output size `h` times `w` (the
source's defaults are 300 and 300). -/
def SSDDataAugmentation.call (h w : Nat) (img : Image) (l : LabelSet)
    (r : Rng) : (Image × LabelSet) × Rng :=
  applyStages (SSDDataAugmentation.sequence h w) img l r

/-- Sequential composition of two stages: run the first, feed its output
pair and remaining random stream to the second. -/
def composeStage (f g : Stage) : Stage := fun img l r =>
  let t := f img l r
  g t.1.1 t.1.2 t.2

/-- A fixed small test image used by the concrete witness statements. -/
def testImage : Image := ⟨2, 2, 3, fun _ _ _ => 0⟩

/-! ## Helper lemmas -/

theorem pixOpWithProb_labels (p lo hi : ℚ) (f : ℚ → Nat → ℚ → ℚ) (img : Image)
    (l : LabelSet) (r : Rng) : (pixOpWithProb p lo hi f img l r).1.2 = l := by
  unfold pixOpWithProb; dsimp only; split <;> rfl

theorem channelSwapOp_labels (p : ℚ) (img : Image) (l : LabelSet) (r : Rng) :
    (channelSwapOp p img l r).1.2 = l := by
  unfold channelSwapOp; dsimp only; split <;> rfl

theorem applyOp_labels (op : PhotometricOp) (img : Image) (l : LabelSet) (r : Rng) :
    (applyOp op img l r).1.2 = l := by
  cases op <;>
    first
    | rfl
    | apply pixOpWithProb_labels
    | apply channelSwapOp_labels

theorem applySeq_labels (ops : List PhotometricOp) :
    ∀ (img : Image) (l : LabelSet) (r : Rng), (applySeq ops img l r).1.2 = l := by
  induction ops with
  | nil => intro img l r; rfl
  | cons op ops ih =>
      intro img l r
      simp only [applySeq]
      rw [ih, applyOp_labels]

theorem coinFlip_zero_fst (r : Rng) : (coinFlip 0 r).1 = false := by
  simp only [coinFlip, decide_eq_false_iff_not, not_lt]
  exact draw_fst_nonneg r

/-! ## Claim theorems -/

/-- C1: `SSDDataAugmentation.__call__` threads the (image, labels) pair
through exactly the five stages photometric distortion, expansion, random
crop, horizontal flip and resize, in that fixed order, and returns the
final pair: for every input the output equals the ordered sequential
composition of the five stage functions. -/
theorem ssd_pipeline_five_stage_order (h w : Nat) (img : Image) (l : LabelSet) (r : Rng) :
    SSDDataAugmentation.call h w img l r =
      composeStage SSDPhotometricDistortions.call
        (composeStage SSDExpand.call
          (composeStage SSDRandomCrop.call
            (composeStage SSDDataAugmentation.randomFlip.call
              (SSDDataAugmentation.resize h w).call))) img l r := rfl

/-- C2: in the bounded-retry crop mode, when the first probability coin
fails (a uniform draw at or above prob = 0.857, an event of probability
1 - prob), `SSDRandomCrop` returns the input image and labels unchanged
and performs no patch-sampling trials: the remaining random stream is
returned untouched, so the no-op is decided before any trial is run, as
normal control flow. -/
theorem ssd_random_crop_coin_fail_noop (img : Image) (l : LabelSet) (u : ℚ) (r : Rng)
    (h1 : 857/1000 ≤ u) (h2 : u < 1) :
    SSDRandomCrop.call img l (u :: r) = ((img, l), r) ∧
    SSDRandomCrop.randomCrop.prob = 857/1000 := by
  refine ⟨?_, rfl⟩
  have h0 : (0 : ℚ) ≤ u := le_trans (by norm_num) h1
  have hn : norm01 u = u := by simp [norm01, h0, h2]
  show RandomPatchInf.go SSDRandomCrop.randomCrop img l ((u :: r).length + 1) (u :: r) = ((img, l), r)
  simp only [List.length_cons, RandomPatchInf.go, coinFlip, draw, hn]
  rw [if_neg]
  simp only [decide_eq_true_eq]
  exact not_lt.mpr h1

/-- Witness for C2 at the concrete draw 9/10 on a concrete image. -/
theorem ssd_random_crop_coin_fail_noop_witness :
    SSDRandomCrop.call testImage [] ((9 : ℚ)/10 :: []) = ((testImage, []), []) ∧
    SSDRandomCrop.randomCrop.prob = 857/1000 :=
  ssd_random_crop_coin_fail_noop testImage [] ((9 : ℚ)/10) [] (by norm_num) (by norm_num)

/-- C3: `SSDExpand` instantiates the single-trial sampler mode with
prob = 0.5, no image validator and no box filter; per the spec's
single-trial contract the sampler returns the input unchanged with
probability 1 - prob, or whenever no `ImageValidator` is configured and
filtering is skipped — under `SSDExpand`'s configuration that
return-input-unchanged condition applies to every input. -/
theorem ssd_expand_unchanged_condition :
    SSDExpand.expand.imageValidator = none ∧
    SSDExpand.expand.boxFilter = none ∧
    SSDExpand.expand.prob = 1/2 ∧
    ∀ (img : Image) (l : LabelSet) (r : Rng),
      (RandomPatch.call SSDExpand.expand img l r).1 = (img, l) := by
  refine ⟨rfl, rfl, rfl, fun img l r => ?_⟩
  unfold RandomPatch.call
  simp [SSDExpand.expand]

/-- C4: `SSDRandomCrop` configures the crop with clip_boxes = false and
the center-point box filter, so on a successful crop every surviving box
is an input box whose center lies in the patch, with coordinates
re-expressed relative to the cropped image origin by subtracting the
patch's top-left corner and with out-of-frame extents left untrimmed
(no clamping is applied). -/
theorem ssd_random_crop_unclipped_translation :
    SSDRandomCrop.randomCrop.clipBoxes = false ∧
    SSDRandomCrop.randomCrop.boxFilter = some SSDRandomCrop.boxFilter ∧
    SSDRandomCrop.boxFilter.overlapCriterion = .centerPoint ∧
    ∀ (p : Patch) (img : Image) (l : LabelSet) (b : Box),
      b ∈ (cropApply SSDRandomCrop.randomCrop p img l).2 →
      ∃ b0 ∈ l, centerInPatch p b0 = true ∧ b = translateBox p b0 := by
  refine ⟨rfl, rfl, rfl, fun p img l b hb => ?_⟩
  simp only [cropApply, SSDRandomCrop.randomCrop, Bool.false_eq_true, if_false] at hb
  rcases List.mem_map.mp hb with ⟨b0, hb0, rfl⟩
  rcases List.mem_filter.mp hb0 with ⟨hbl, hkeep⟩
  refine ⟨b0, hbl, ?_, rfl⟩
  simpa [BoxFilter.keep, SSDRandomCrop.boxFilter] using hkeep

/-- Witness for C4: a box reaching past the patch's left edge survives by
its center point and keeps a negative (untrimmed) xmin after the
translation. -/
theorem ssd_random_crop_unclipped_translation_witness :
    ∃ b0 ∈ [(⟨0, 0, 2, 6, 4⟩ : Box)],
      centerInPatch ⟨1, 1, 11, 11⟩ b0 = true ∧
      (⟨0, -1, 1, 5, 3⟩ : Box) = translateBox ⟨1, 1, 11, 11⟩ b0 :=
  ssd_random_crop_unclipped_translation.2.2.2 ⟨1, 1, 11, 11⟩ testImage
    [⟨0, 0, 2, 6, 4⟩] ⟨0, -1, 1, 5, 3⟩ (by with_unfolding_all decide)

/-- C5: each call of `SSDPhotometricDistortions.__call__` makes a single
uniform draw that with probability 0.5 (threshold one half) selects one
of the two fixed ordered operation sequences and applies it in order; the
sequences differ in the position of the contrast adjustment (index 3
versus index 11) and both end with the same channel-swap operation. -/
theorem ssd_photometric_one_draw_two_sequences :
    (∀ (img : Image) (l : LabelSet) (u : ℚ) (r : Rng),
      SSDPhotometricDistortions.call img l (u :: r) =
        if 1 ≤ norm01 u * 2 then applySeq SSDPhotometricDistortions.sequence1 img l r
        else applySeq SSDPhotometricDistortions.sequence2 img l r) ∧
    SSDPhotometricDistortions.sequence1[3]? = some (.randomContrast (1/2) (3/2) (1/2)) ∧
    SSDPhotometricDistortions.sequence2[11]? = some (.randomContrast (1/2) (3/2) (1/2)) ∧
    SSDPhotometricDistortions.sequence1.getLast? = some (.randomChannelSwap 0) ∧
    SSDPhotometricDistortions.sequence2.getLast? = some (.randomChannelSwap 0) ∧
    SSDPhotometricDistortions.sequence1 ≠ SSDPhotometricDistortions.sequence2 := by
  refine ⟨fun img l u r => ?_, by with_unfolding_all decide, by with_unfolding_all decide,
    by with_unfolding_all decide, by with_unfolding_all decide, by with_unfolding_all decide⟩
  rcases lt_or_le (norm01 u * 2) 1 with h | h
  · simp [SSDPhotometricDistortions.call, npChoice2, draw, h, not_le.mpr h]
  · simp [SSDPhotometricDistortions.call, npChoice2, draw, not_lt.mpr h, h]

/-- C6: the photometric-distortion stage never touches labels — since
every photometric primitive passes the label set through unchanged (the
spec's interface contract, built into the primitive model), the labels
returned by `SSDPhotometricDistortions.__call__` equal the labels passed
in, whichever sub-sequence is selected. -/
theorem ssd_photometric_labels_unchanged (img : Image) (l : LabelSet) (r : Rng) :
    (SSDPhotometricDistortions.call img l r).1.2 = l := by
  unfold SSDPhotometricDistortions.call
  dsimp only
  split
  · exact applySeq_labels _ img l _
  · exact applySeq_labels _ img l _

/-- C7: the top-level pipeline is a pure function of (image, labels,
RNG state): two invocations of `SSDDataAugmentation.__call__` on equal
images, equal label sets and equal random streams produce equal output
images and equal output label sets. -/
theorem ssd_pipeline_pure_in_rng (h w : Nat) (i1 i2 : Image) (l1 l2 : LabelSet)
    (r1 r2 : Rng) (hi : i1 = i2) (hl : l1 = l2) (hr : r1 = r2) :
    (SSDDataAugmentation.call h w i1 l1 r1).1.1 = (SSDDataAugmentation.call h w i2 l2 r2).1.1 ∧
    (SSDDataAugmentation.call h w i1 l1 r1).1.2 = (SSDDataAugmentation.call h w i2 l2 r2).1.2 := by
  rw [hi, hl, hr]; exact ⟨rfl, rfl⟩

/-- Witness for C7 at a concrete image, label set and random stream. -/
theorem ssd_pipeline_pure_in_rng_witness :
    (SSDDataAugmentation.call 300 300 testImage [] []).1.1 =
      (SSDDataAugmentation.call 300 300 testImage [] []).1.1 ∧
    (SSDDataAugmentation.call 300 300 testImage [] []).1.2 =
      (SSDDataAugmentation.call 300 300 testImage [] []).1.2 :=
  ssd_pipeline_pure_in_rng 300 300 testImage testImage [] [] [] [] rfl rfl rfl

/-- The 500 x 400 x 3 input image of the end-to-end check (C8). -/
def c8Image : Image := ⟨500, 400, 3, fun _ _ _ => 0⟩

/-- The single input box of the end-to-end check (C8). -/
def c8Box : Box := ⟨0, 100, 50, 300, 250⟩

/-- The fixed random seed of the end-to-end check (C8): a stream of
uniform draws all equal to 9/10. -/
def c8Seed : Rng := List.replicate 12 (9/10)

/-- C8: on the default-constructed pipeline (300 x 300), a
500 x 400 x 3 image carrying the single box (100, 50, 300, 250) and a
fixed random seed produces a 300 x 300 x 3 output image and at most one
output box whose coordinates lie within [0, 300] x [0, 300]. -/
theorem ssd_pipeline_end_to_end :
    (SSDDataAugmentation.call 300 300 c8Image [c8Box] c8Seed).1.1.height = 300 ∧
    (SSDDataAugmentation.call 300 300 c8Image [c8Box] c8Seed).1.1.width = 300 ∧
    (SSDDataAugmentation.call 300 300 c8Image [c8Box] c8Seed).1.1.channels = 3 ∧
    (SSDDataAugmentation.call 300 300 c8Image [c8Box] c8Seed).1.2.length ≤ 1 ∧
    ∀ b ∈ (SSDDataAugmentation.call 300 300 c8Image [c8Box] c8Seed).1.2,
      0 ≤ b.xmin ∧ b.xmax ≤ 300 ∧ 0 ≤ b.ymin ∧ b.ymax ≤ 300 := by
  with_unfolding_all decide

/-- C9: the channel swap shared as the final step of both photometric
sub-sequences is constructed with probability 0.0, so for every image and
every RNG state it is the identity on the (image, labels) pair — the
pipeline never swaps channel order. -/
theorem ssd_channel_swap_never_swaps :
    (∀ (img : Image) (l : LabelSet) (r : Rng),
      (applyOp (.randomChannelSwap 0) img l r).1 = (img, l)) ∧
    SSDPhotometricDistortions.sequence1.getLast? = some (.randomChannelSwap 0) ∧
    SSDPhotometricDistortions.sequence2.getLast? = some (.randomChannelSwap 0) := by
  refine ⟨fun img l r => ?_, by with_unfolding_all decide, by with_unfolding_all decide⟩
  show (channelSwapOp 0 img l r).1 = (img, l)
  simp [channelSwapOp, coinFlip_zero_fst]

/-- C10: every bound pair in `SSDRandomCrop`'s IoU sample space has an
absent upper endpoint, the space contains the fully unconstrained pair,
and every bound pair the bound generator can ever return belongs to the
space (hence is lower-bounded only). -/
theorem ssd_crop_bounds_lower_only :
    ((none, none) ∈ SSDRandomCrop.sampleSpace) ∧
    (∀ bp ∈ SSDRandomCrop.sampleSpace, bp.2 = none) ∧
    ∀ r : Rng, (SSDRandomCrop.boundGenerator.call r).1 ∈ SSDRandomCrop.sampleSpace ∧
      ((SSDRandomCrop.boundGenerator.call r).1).2 = none := by
  refine ⟨by with_unfolding_all decide, by with_unfolding_all decide, fun r => ?_⟩
  simp only [BoundGenerator.call, SSDRandomCrop.boundGenerator, chooseFrom]
  have hk : chooseIdx SSDRandomCrop.sampleSpace.length (draw r).1 ≤ 5 := by
    unfold chooseIdx
    exact le_trans (min_le_right _ _) (by norm_num [SSDRandomCrop.sampleSpace])
  set k := chooseIdx SSDRandomCrop.sampleSpace.length (draw r).1 with hkdef
  interval_cases k <;> with_unfolding_all decide
